import Mathlib

/-!
# Verification of the research/convert service against its specification

Shallow embedding of `src/server/vector_service.py`.  The two request
handlers that contain real logic are embedded:

* `conduct_research` (`POST /api/research`): research, store, generate,
  validate, wrapped in one `try/except` that turns any failure into an
  HTTP 500 error.  External effects (the research agent, `os.urandom`,
  `datetime.now`, `collection.add`, the LLM chain calls) are passed in
  explicitly through an `Effects` record.
* `convert_to_word` (`POST /api/convert`): the markdown-to-docx block
  construction.  We model the sequence of heading/paragraph blocks added
  to the Word document; the docx serialisation itself is an external
  library call.

Python string primitives used by the source (`str.split('\n\n')`,
`str.split()`, `str.strip()`, `str.strip('#')`, `str.startswith('#')`)
are embedded as executable functions on `List Char`.

Components that the specification describes but that are absent from the
single source file under `src/` (the retrying Research Acquirer, the
Backoff Scheduler, and the synthetic-data disclosure of the Generation
Orchestrator) are modelled from the spec; each such definition carries a
doc comment starting with `Modelled from the spec:`.
-/

/-! ## Python string primitives -/

/-- Python `str` whitespace test restricted to the ASCII whitespace
characters recognised by `str.strip()` / `str.split()`. -/
def pyIsSpace (c : Char) : Bool :=
  c == ' ' || c == '\t' || c == '\n' || c == '\r' || c == '\x0b' || c == '\x0c'

/-- Drop characters satisfying `p` from both ends of a character list;
the list-level engine behind Python `str.strip(chars)`. -/
def stripEnds (p : Char → Bool) (l : List Char) : List Char :=
  ((l.dropWhile p).reverse.dropWhile p).reverse

/-- Python `para.strip()`: remove leading and trailing whitespace. -/
def pyStrip (s : String) : String :=
  ⟨stripEnds pyIsSpace s.data⟩

/-- Python `token.strip('#')`: remove leading and trailing `'#'`. -/
def stripHash (s : String) : String :=
  ⟨stripEnds (fun c => c == '#') s.data⟩

/-- Worker for Python `str.split()` (split on whitespace runs, dropping
empty pieces); `acc` holds the characters of the current word, reversed. -/
def wordsAux : List Char → List Char → List String
  | [], acc => if acc = [] then [] else [⟨acc.reverse⟩]
  | c :: cs, acc =>
    if pyIsSpace c then
      if acc = [] then wordsAux cs [] else ⟨acc.reverse⟩ :: wordsAux cs []
    else wordsAux cs (c :: acc)

/-- Python `para.split()`: whitespace-separated tokens. -/
def pySplitWs (s : String) : List String :=
  wordsAux s.data []

/-- Python `para.startswith('#')`. -/
def startsWithHash (s : String) : Bool :=
  match s.data with
  | '#' :: _ => true
  | _ => false

/-- Worker for Python `content.split('\n\n')`: non-overlapping
left-to-right split on the two-character separator, keeping empty
pieces; `acc` holds the current piece, reversed. -/
def splitBlankAux : List Char → List Char → List (List Char)
  | [], acc => [acc.reverse]
  | '\n' :: '\n' :: cs, acc => acc.reverse :: splitBlankAux cs []
  | c :: cs, acc => splitBlankAux cs (c :: acc)

/-- Python `request.content.split('\n\n')`. -/
def splitBlank (s : String) : List String :=
  (splitBlankAux s.data []).map String.mk

/-! ## The markdown structurer (`convert_to_word`, lines 255-270) -/

/-- A block added to the Word document: `doc.add_heading(text, level)`
or `doc.add_paragraph(text)`. -/
inductive DocBlock where
  | heading (level : Nat) (text : String)
  | paragraph (text : String)
deriving DecidableEq

/-- Input model of `POST /api/convert`. -/
structure ConvertRequest where
  title : String
  content : String
deriving DecidableEq

/-- Body of the per-paragraph loop of `convert_to_word`:

```python
if para.strip():
    if para.startswith('#'):
        level = len(para.split()[0].strip('#'))
        text = ' '.join(para.split()[1:])
        doc.add_heading(text, level=min(level + 1, 9))
    else:
        doc.add_paragraph(para.strip())
```

`headD ""` is safe: under the `para.strip()` guard, `para.split()` is
never empty, so Python's `para.split()[0]` cannot raise either. -/
def processPara (para : String) : List DocBlock :=
  if pyStrip para = "" then []
  else if startsWithHash para then
    [DocBlock.heading (min ((stripHash ((pySplitWs para).headD "")).length + 1) 9)
      (String.intercalate " " ((pySplitWs para).drop 1))]
  else [DocBlock.paragraph (pyStrip para)]

/-- The blocks derived from the request content:
`for para in request.content.split('\n\n'): ...`. -/
def mdBlocks (content : String) : List DocBlock :=
  ((splitBlank content).map processPara).flatten

/-- Block sequence of the Word document built by `convert_to_word`:
`doc.add_heading(request.title, level=1)` followed by the content
blocks. -/
def convert_to_word (req : ConvertRequest) : List DocBlock :=
  DocBlock.heading 1 req.title :: mdBlocks req.content

/-! ## The research pipeline (`conduct_research`, lines 189-244) -/

/-- Input model of `POST /api/research`. -/
structure ResearchRequest where
  topic : String
  word_count : Nat
  instructions : String
deriving DecidableEq

/-- The `research_prompt` template (lines 165-187) filled with its four
variables, exactly as LangChain's `PromptTemplate` formats it. -/
def fillPrompt (topic : String) (word_count : Nat)
    (research_data instructions : String) : String :=
  "\n    Write a comprehensive blog post about " ++ topic ++
  " with approximately " ++ toString word_count ++ " words.\n\n" ++
  "    Research Data:\n    " ++ research_data ++ "\n\n" ++
  "    Special Instructions:\n    " ++ instructions ++ "\n\n" ++
  "    Requirements:\n" ++
  "    1. Ensure factual accuracy and cite sources where appropriate\n" ++
  "    2. Structure content with clear headings (use markdown)\n" ++
  "    3. Include relevant statistics and data\n" ++
  "    4. Balance depth with readability\n" ++
  "    5. Maintain SEO-friendly formatting\n" ++
  "    6. Add compelling introduction and conclusion\n" ++
  "    7. Include key takeaways or actionable insights\n\n" ++
  "    Format the content in clean markdown.\n    "

/-- The 16 lowercase hex digits. -/
def hexDigits : String := "0123456789abcdef"

/-- Hex digit of `n % 16`. -/
def hexChar (n : Nat) : Char :=
  hexDigits.data.getD (n % 16) '0'

/-- One byte rendered as two hex digits, as Python's `bytes.hex()` does
(`os.urandom` bytes are below 256, so the inner `% 16` never clips). -/
def byteHex (b : Nat) : List Char :=
  [hexChar (b / 16), hexChar b]

/-- Python `os.urandom(16).hex()` applied to the drawn bytes. -/
def bytesHex (bs : List Nat) : String :=
  ⟨(bs.map byteHex).flatten⟩

/-- One call to `collection.add(documents=[doc], metadatas=[md], ids=[id])`. -/
structure StoreCall where
  id : String
  document : String
  metadata : List (String × String)
deriving DecidableEq

/-- The external effects consumed by one run of `conduct_research`,
passed in explicitly: the behaviour of the agent research call, the
bytes drawn by `os.urandom(16)`, the `datetime.now().isoformat()`
timestamp, the outcome of `collection.add`, and the three LLM calls
(`blog_chain.arun` keyed on the filled prompt, quality assessment and
fact check keyed on the generated post).  `Except.error` models a
raised exception carrying `str(e)`. -/
structure Effects where
  research : Except String String
  urandom16 : List Nat
  now_iso : String
  add_result : Except String Unit
  complete : String → Except String String
  quality : String → Except String String
  facts : String → Except String String

/-- The JSON object returned by a successful `conduct_research` run
(the nested `metadata` object is flattened into its two fields). -/
structure ResearchResponse where
  content : String
  vector_id : String
  research_data : String
  quality_report : String
  fact_check : String
deriving DecidableEq

/-- `HTTPException(status_code=..., detail=...)`. -/
structure HTTPErrorModel where
  status : Nat
  detail : String
deriving DecidableEq

deriving instance DecidableEq for Except

/-- `conduct_research` (lines 189-244).  The whole body sits in one
`try`; any exception `e` becomes
`HTTPException(500, "Research process failed: " + str(e))`.  The second
component records the `collection.add` calls that were issued (the call
is issued before its outcome is known, so it appears in the trace even
when the store raises). -/
def conduct_research (req : ResearchRequest) (fx : Effects) :
    Except HTTPErrorModel ResearchResponse × List StoreCall :=
  match fx.research with
  | .error e => (.error ⟨500, "Research process failed: " ++ e⟩, [])
  | .ok research_result =>
    let doc_id := bytesHex fx.urandom16
    let call : StoreCall :=
      ⟨doc_id, research_result,
        [("topic", req.topic), ("timestamp", fx.now_iso), ("type", "research")]⟩
    match fx.add_result with
    | .error e => (.error ⟨500, "Research process failed: " ++ e⟩, [call])
    | .ok _ =>
      match fx.complete
          (fillPrompt req.topic req.word_count research_result req.instructions) with
      | .error e => (.error ⟨500, "Research process failed: " ++ e⟩, [call])
      | .ok blog_post =>
        match fx.quality blog_post with
        | .error e => (.error ⟨500, "Research process failed: " ++ e⟩, [call])
        | .ok quality_report =>
          match fx.facts blog_post with
          | .error e => (.error ⟨500, "Research process failed: " ++ e⟩, [call])
          | .ok fact_check =>
            (.ok ⟨blog_post, doc_id, research_result, quality_report, fact_check⟩,
              [call])

/-! ## Substring containment (for the disclosure claim) -/

/-- `pat` is a leading segment of `l`. -/
def leadsWith : List Char → List Char → Bool
  | [], _ => true
  | _ :: _, [] => false
  | p :: ps, c :: cs => p == c && leadsWith ps cs

/-- `pat` occurs contiguously somewhere in `l`. -/
def containsList (pat : List Char) : List Char → Bool
  | [] => pat.isEmpty
  | c :: cs => leadsWith pat (c :: cs) || containsList pat cs

/-- Python `pat in s` (substring containment). -/
def containsStr (s pat : String) : Bool :=
  containsList pat.data s.data

/-! ## Spec-modelled components

The single file under `src/` contains no retry loop, no fallback
content, no provenance flag and no backoff scheduler; per the spec these
live in other revisions of the repository.  The definitions below are
modelled from the spec (sections 4.1, 4.2 and 4.4). -/

/-- Modelled from the spec: the retry budget of the Research Acquirer
(`src/` contains no `MAX_RETRIES`; spec section 4.2 bounds the lookup at
`MAX_RETRIES + 1` total attempts). -/
def MAX_RETRIES : Nat := 3

/-- Modelled from the spec: `ResearchOutcome = {text, is_live}`;
`is_live = false` marks synthetic fallback content. -/
structure ResearchOutcome where
  text : String
  is_live : Bool
deriving DecidableEq

/-- Modelled from the spec: the keyword set of the topic classifier for
fallback selection (case-insensitive substring match). -/
def aiKeywords : List String := ["ai", "artificial intelligence"]

/-- Modelled from the spec: classify a topic by case-insensitive
substring match against the keyword set. -/
def isAiTopic (topic : String) : Bool :=
  aiKeywords.any (fun k => containsStr topic.toLower k)

/-- Modelled from the spec: the richer multi-section fallback outline
for matched (AI-related) topics. -/
def richFallback (topic : String) : String :=
  "# Overview: " ++ topic ++
  "\n\n## Background\nGeneral context and definitions." ++
  "\n\n## Key Developments\nNotable recent milestones." ++
  "\n\n## Applications\nWhere the technology is used today." ++
  "\n\n## Challenges\nOpen problems and limitations." ++
  "\n\n## Outlook\nDirections the field is likely to take."

/-- Modelled from the spec: the generic 5-point outline for unmatched
topics. -/
def genericFallback (topic : String) : String :=
  "Research notes on " ++ topic ++
  ":\n1. Definition and scope" ++
  "\n2. Historical development" ++
  "\n3. Current state of the art" ++
  "\n4. Practical applications" ++
  "\n5. Future directions"

/-- Modelled from the spec: two-tier topic-sensitive fallback text. -/
def fallbackText (topic : String) : String :=
  if isAiTopic topic then richFallback topic else genericFallback topic

/-- Modelled from the spec: the retry loop of `acquire`, fuelled by the
remaining attempts.  `lookup i` is the outcome of the `i`-th external
lookup (`none` models a raised lookup error); `i` counts the attempts
already made.  Returns the outcome together with the total number of
lookup attempts performed. -/
def acquireGo (lookup : Nat → Option String) (topic : String) :
    Nat → Nat → ResearchOutcome × Nat
  | i, 0 => (⟨fallbackText topic, false⟩, i)
  | i, fuel + 1 =>
    match lookup i with
    | some text => (⟨text, true⟩, i + 1)
    | none => acquireGo lookup topic (i + 1) fuel

/-- Modelled from the spec: `acquire(topic)` — up to `MAX_RETRIES + 1`
lookup attempts, then synthetic fallback tagged `is_live = false`.
A total function: it returns a `ResearchOutcome` for every topic and
every behaviour of the lookup provider (the "never raises" contract). -/
def acquire (lookup : Nat → Option String) (topic : String) :
    ResearchOutcome × Nat :=
  acquireGo lookup topic 0 (MAX_RETRIES + 1)

/-- Modelled from the spec: the disclosure sentence the Generation
Orchestrator appends to `instructions` when the research outcome is
synthetic (`src/` passes `request.instructions` through unchanged and
has no provenance flag). -/
def DISCLOSURE_SENTENCE : String :=
  "Note: live research was unavailable, so the reference data consists of synthetic background material drawn from general knowledge rather than fresh research."

/-- Modelled from the spec: instructions actually passed to the prompt
template; the disclosure sentence is appended when `is_live = false`. -/
def orchestratorInstructions (instructions : String) (is_live : Bool) : String :=
  if is_live then instructions
  else instructions ++ " " ++ DISCLOSURE_SENTENCE

/-- Modelled from the spec: the templated prompt built by the Generation
Orchestrator, using the `research_prompt` template from `src/`. -/
def generatePrompt (topic : String) (word_count : Nat)
    (research_data instructions : String) (is_live : Bool) : String :=
  fillPrompt topic word_count research_data
    (orchestratorInstructions instructions is_live)

/-- Modelled from the spec: the Backoff Scheduler delay for retry
attempt `a >= 1`: `base * 2 ^ (a - 1) * jitter`, where the jitter
factor is the drawn sample when jitter is enabled and `1` otherwise. -/
def backoffDelay (base : ℚ) (jitterEnabled : Bool) (jitterSample : ℚ)
    (a : Nat) : ℚ :=
  base * 2 ^ (a - 1) * (if jitterEnabled then jitterSample else 1)

/-! ## Helper lemmas: Python string primitives -/

theorem dropWhile_all_iff (p : Char → Bool) (l : List Char) :
    (∀ c ∈ l.dropWhile p, p c = true) ↔ ∀ c ∈ l, p c = true := by
  constructor
  · intro h c hc
    rw [← List.takeWhile_append_dropWhile (p := p) (l := l)] at hc
    rcases List.mem_append.mp hc with hc' | hc'
    · exact List.mem_takeWhile_imp hc'
    · exact h c hc'
  · intro h c hc
    exact h c ((List.dropWhile_sublist _).subset hc)

theorem stripEnds_eq_nil_iff (p : Char → Bool) (l : List Char) :
    stripEnds p l = [] ↔ ∀ c ∈ l, p c = true := by
  unfold stripEnds
  rw [List.reverse_eq_nil_iff, List.dropWhile_eq_nil_iff]
  constructor
  · intro h
    refine (dropWhile_all_iff p l).mp ?_
    intro c hc
    exact h c (List.mem_reverse.mpr hc)
  · intro h c hc
    exact (dropWhile_all_iff p l).mpr h c (List.mem_reverse.mp hc)

theorem mk_eq_empty_iff (l : List Char) : String.mk l = "" ↔ l = [] := by
  constructor
  · intro h
    exact congrArg String.data h
  · intro h
    rw [h]

theorem pyStrip_eq_empty_iff (s : String) :
    pyStrip s = "" ↔ ∀ c ∈ s.data, pyIsSpace c = true := by
  unfold pyStrip
  rw [mk_eq_empty_iff, stripEnds_eq_nil_iff]

theorem processPara_ws (para : String)
    (h : ∀ c ∈ para.data, pyIsSpace c = true) : processPara para = [] := by
  unfold processPara
  rw [if_pos ((pyStrip_eq_empty_iff para).mpr h)]

theorem splitBlankAux_ws (l acc : List Char)
    (hl : ∀ c ∈ l, pyIsSpace c = true)
    (ha : ∀ c ∈ acc, pyIsSpace c = true) :
    ∀ p ∈ splitBlankAux l acc, ∀ c ∈ p, pyIsSpace c = true := by
  induction l, acc using splitBlankAux.induct with
  | case1 acc =>
    intro p hp c hc
    simp only [splitBlankAux, List.mem_singleton] at hp
    subst hp
    exact ha c (List.mem_reverse.mp hc)
  | case2 cs acc ih =>
    intro p hp c hc
    simp only [splitBlankAux, List.mem_cons] at hp
    rcases hp with rfl | hp
    · exact ha c (List.mem_reverse.mp hc)
    · refine ih (fun d hd => hl d ?_) (by simp) p hp c hc
      simp [hd]
  | case3 d cs acc h1 ih =>
    intro p hp c hc
    rw [splitBlankAux] at hp
    · refine ih (fun e he => hl e (List.mem_cons_of_mem _ he)) ?_ p hp c hc
      intro e he
      rcases List.mem_cons.mp he with rfl | he'
      · exact hl e (List.mem_cons_self _ _)
      · exact ha e he'
    · exact h1

theorem splitBlank_ws (content : String)
    (h : ∀ c ∈ content.data, pyIsSpace c = true) :
    ∀ p ∈ splitBlank content, ∀ c ∈ p.data, pyIsSpace c = true := by
  intro p hp c hc
  unfold splitBlank at hp
  rcases List.mem_map.mp hp with ⟨q, hq, rfl⟩
  exact splitBlankAux_ws content.data [] h (by simp) q hq c hc

theorem mdBlocks_ws (content : String)
    (h : ∀ c ∈ content.data, pyIsSpace c = true) : mdBlocks content = [] := by
  unfold mdBlocks
  rw [List.flatten_eq_nil_iff]
  intro x hx
  rcases List.mem_map.mp hx with ⟨p, hp, rfl⟩
  exact processPara_ws p (splitBlank_ws content h p hp)

/-! ## Helper lemmas: tokenising a heading unit -/

theorem pyIsSpace_space : pyIsSpace ' ' = true := rfl

theorem pyIsSpace_hash : pyIsSpace '#' = false := rfl

theorem wordsAux_nil_acc (acc : List Char) (h : acc ≠ []) :
    wordsAux [] acc = [⟨acc.reverse⟩] := by
  rw [wordsAux, if_neg h]

theorem wordsAux_space (cs acc : List Char) (h : acc ≠ []) :
    wordsAux (' ' :: cs) acc = ⟨acc.reverse⟩ :: wordsAux cs [] := by
  rw [wordsAux]
  simp [pyIsSpace_space, h]

theorem wordsAux_hashes (n : Nat) (cs acc : List Char) :
    wordsAux (List.replicate n '#' ++ cs) acc =
      wordsAux cs (List.replicate n '#' ++ acc) := by
  induction n generalizing acc with
  | zero => simp
  | succ m ih =>
    rw [List.replicate_succ, List.cons_append, wordsAux]
    simp only [pyIsSpace_hash, Bool.false_eq_true, if_false]
    rw [ih]
    congr 1
    rw [List.append_cons, ← List.replicate_succ', List.replicate_succ,
      List.cons_append]

theorem replicate_hash_ne_nil (n : Nat) (h : 1 ≤ n) :
    List.replicate n '#' ≠ [] := by
  simp only [ne_eq, List.replicate_eq_nil_iff]
  omega

theorem pySplitWs_hash_word (n : Nat) (h : 1 ≤ n) (w : String) :
    pySplitWs (String.mk (List.replicate n '#' ++ ' ' :: w.data)) =
      String.mk (List.replicate n '#') :: pySplitWs w := by
  unfold pySplitWs
  show wordsAux (List.replicate n '#' ++ ' ' :: w.data) [] = _
  rw [wordsAux_hashes, List.append_nil,
    wordsAux_space _ _ (replicate_hash_ne_nil n h), List.reverse_replicate]

theorem pySplitWs_hash_only (n : Nat) (h : 1 ≤ n) :
    pySplitWs (String.mk (List.replicate n '#')) =
      [String.mk (List.replicate n '#')] := by
  unfold pySplitWs
  show wordsAux (List.replicate n '#') [] = _
  have h2 := wordsAux_hashes n [] []
  simp only [List.append_nil] at h2
  rw [h2, wordsAux_nil_acc _ (replicate_hash_ne_nil n h), List.reverse_replicate]

theorem stripHash_replicate (n : Nat) :
    stripHash (String.mk (List.replicate n '#')) = "" := by
  unfold stripHash
  rw [mk_eq_empty_iff, stripEnds_eq_nil_iff]
  intro c hc
  rw [(List.mem_replicate.mp hc).2]
  rfl

theorem pyStrip_ne_empty_of_hash (l : List Char) (hmem : '#' ∈ l) :
    pyStrip (String.mk l) ≠ "" := by
  intro h
  have h2 := (pyStrip_eq_empty_iff _).mp h '#' hmem
  rw [pyIsSpace_hash] at h2
  exact Bool.false_ne_true h2

/-! ## Helper lemmas: acquire, fallback, substring, hex encoding -/

theorem acquireGo_attempts (lookup : Nat → Option String) (topic : String) :
    ∀ fuel i, (acquireGo lookup topic i fuel).2 ≤ i + fuel := by
  intro fuel
  induction fuel with
  | zero =>
    intro i
    simp [acquireGo]
  | succ m ih =>
    intro i
    cases h : lookup i with
    | some t =>
      simp only [acquireGo, h]
      omega
    | none =>
      simp only [acquireGo, h]
      have h2 := ih (i + 1)
      omega

theorem acquireGo_exhaust (lookup : Nat → Option String) (topic : String) :
    ∀ fuel i, (∀ j, i ≤ j → j < i + fuel → lookup j = none) →
      acquireGo lookup topic i fuel = (⟨fallbackText topic, false⟩, i + fuel) := by
  intro fuel
  induction fuel with
  | zero =>
    intro i h
    simp [acquireGo]
  | succ m ih =>
    intro i h
    have h0 : lookup i = none := h i (Nat.le_refl i) (by omega)
    simp only [acquireGo, h0]
    have h2 := ih (i + 1) (fun j hj1 hj2 => h j (by omega) (by omega))
    rw [h2]
    have h3 : i + 1 + m = i + (m + 1) := by omega
    rw [h3]

theorem append_ne_empty_left (s t : String) (h : s ≠ "") : s ++ t ≠ "" := by
  intro he
  apply h
  have h2 := congrArg String.data he
  rw [String.data_append] at h2
  have h3 := (List.append_eq_nil.mp h2).1
  apply String.ext
  simpa using h3

theorem fallbackText_ne_empty (topic : String) : fallbackText topic ≠ "" := by
  unfold fallbackText
  split
  · unfold richFallback
    apply append_ne_empty_left
    apply append_ne_empty_left
    apply append_ne_empty_left
    apply append_ne_empty_left
    apply append_ne_empty_left
    apply append_ne_empty_left
    decide
  · unfold genericFallback
    apply append_ne_empty_left
    apply append_ne_empty_left
    apply append_ne_empty_left
    apply append_ne_empty_left
    apply append_ne_empty_left
    apply append_ne_empty_left
    decide

theorem leadsWith_self_append (l t : List Char) : leadsWith l (l ++ t) = true := by
  induction l with
  | nil => rfl
  | cons c cs ih => simp [leadsWith, ih]

theorem containsList_append_mid (pat S T : List Char) :
    containsList pat (S ++ (pat ++ T)) = true := by
  induction S with
  | nil =>
    simp only [List.nil_append]
    cases pat with
    | nil =>
      cases T with
      | nil => rfl
      | cons c cs => rfl
    | cons p ps =>
      rw [List.cons_append, containsList, ← List.cons_append,
        leadsWith_self_append, Bool.true_or]
  | cons c cs ih =>
    rw [List.cons_append, containsList, ih, Bool.or_true]

theorem containsStr_append_mid (A pat B : String) :
    containsStr (A ++ (pat ++ B)) pat = true := by
  unfold containsStr
  rw [String.data_append, String.data_append]
  exact containsList_append_mid pat.data A.data B.data

theorem bytesHex_length (bs : List Nat) : (bytesHex bs).length = 2 * bs.length := by
  unfold bytesHex
  show ((bs.map byteHex).flatten).length = 2 * bs.length
  induction bs with
  | nil => rfl
  | cons b t ih =>
    simp only [List.map_cons, List.flatten_cons, List.length_append, ih,
      byteHex, List.length_cons, List.length_nil]
    omega

theorem hexChar_mem (n : Nat) : hexChar n ∈ hexDigits.data := by
  have h16 : n % 16 < 16 := Nat.mod_lt _ (by norm_num)
  have h2 : ∀ m, m < 16 → hexDigits.data.getD m '0' ∈ hexDigits.data := by decide
  exact h2 (n % 16) h16

theorem bytesHex_mem_hexDigits (bs : List Nat) :
    ∀ c ∈ (bytesHex bs).data, c ∈ hexDigits.data := by
  intro c hc
  have hc' : c ∈ (bs.map byteHex).flatten := hc
  rcases List.mem_flatten.mp hc' with ⟨l, hl, hcl⟩
  rcases List.mem_map.mp hl with ⟨b, hb, rfl⟩
  simp only [byteHex, List.mem_cons, List.not_mem_nil, or_false] at hcl
  rcases hcl with rfl | rfl <;> exact hexChar_mem _

/-! ## Claim C2: heading level for a run of hash characters -/

/-- C2 counterexample: the claim says structuring `"########## Deep"`
(10 hashes) yields `Heading(level=9, text="Deep")`; the code computes
`len(para.split()[0].strip('#'))`, which is `0` for a pure `#` run, and
emits `min(0 + 1, 9) = 1`, so the result is `Heading(level=1, text="Deep")`. -/
theorem C2_heading_clamp_counterexample :
    mdBlocks "########## Deep" = [DocBlock.heading 1 "Deep"] ∧
    mdBlocks "########## Deep" ≠ [DocBlock.heading 9 "Deep"] := by
  decide

/-- C2 amended: for a unit made of a run of `n >= 1` `'#'` characters,
a space, and remaining text, the emitted heading level is
`min(len(firstToken.strip('#')) + 1, 9)`; a pure `'#'` run strips to the
empty string, so the level is `1` regardless of `n`, and the text is the
remaining whitespace-separated tokens joined by single spaces.  In
particular `"########## Deep"` yields `Heading(level=1, text="Deep")`. -/
theorem C2_heading_level_amended (n : Nat) (h : 1 ≤ n) (w : String) :
    processPara (String.mk (List.replicate n '#' ++ ' ' :: w.data)) =
      [DocBlock.heading 1 (String.intercalate " " (pySplitWs w))] := by
  have hmem : '#' ∈ List.replicate n '#' ++ ' ' :: w.data :=
    List.mem_append_left _ (List.mem_replicate.mpr ⟨by omega, rfl⟩)
  unfold processPara
  rw [if_neg (pyStrip_ne_empty_of_hash _ hmem)]
  have hsw : startsWithHash (String.mk (List.replicate n '#' ++ ' ' :: w.data)) = true := by
    obtain ⟨m, rfl⟩ : ∃ m, n = m + 1 := ⟨n - 1, by omega⟩
    rw [List.replicate_succ, List.cons_append]
    rfl
  rw [if_pos hsw, pySplitWs_hash_word n h w]
  simp only [List.headD_cons, List.drop_succ_cons, List.drop_zero,
    stripHash_replicate]
  rfl

/-- C2 witness for the amended theorem, at 10 hashes and text `"Deep"`. -/
theorem C2_witness :
    processPara (String.mk (List.replicate 10 '#' ++ ' ' :: "Deep".data)) =
      [DocBlock.heading 1 (String.intercalate " " (pySplitWs "Deep"))] :=
  C2_heading_level_amended 10 (by decide) "Deep"

/-! ## Claim C8: whitespace-only units produce no block -/

/-- C8: a blank-line-delimited unit consisting only of whitespace is
dropped entirely (the `if para.strip():` guard), and the fully
blank/whitespace input `"\n\n   \n\n"` yields an empty block sequence. -/
theorem C8_whitespace_units_dropped :
    (∀ para : String, (∀ c ∈ para.data, pyIsSpace c = true) →
      processPara para = []) ∧
    mdBlocks "\n\n   \n\n" = [] := by
  constructor
  · exact processPara_ws
  · decide

/-- C8 witness: a concrete whitespace-only unit produces no block. -/
theorem C8_witness : processPara "   " = [] :=
  C8_whitespace_units_dropped.1 "   " (by decide)

/-! ## Claim C9: a bare hash run becomes a heading with empty text -/

/-- C9: a unit that is a bare run of `n >= 1` `'#'` characters with no
trailing text is not dropped and produces a heading with empty text
(the token parse tolerates the missing trailing space; the emitted
level is `min(0 + 1, 9) = 1`). -/
theorem C9_bare_hash_run_heading (n : Nat) (h : 1 ≤ n) :
    processPara (String.mk (List.replicate n '#')) = [DocBlock.heading 1 ""] := by
  have hmem : '#' ∈ List.replicate n '#' :=
    List.mem_replicate.mpr ⟨by omega, rfl⟩
  unfold processPara
  rw [if_neg (pyStrip_ne_empty_of_hash _ hmem)]
  have hsw : startsWithHash (String.mk (List.replicate n '#')) = true := by
    obtain ⟨m, rfl⟩ : ∃ m, n = m + 1 := ⟨n - 1, by omega⟩
    rw [List.replicate_succ]
    rfl
  rw [if_pos hsw, pySplitWs_hash_only n h]
  simp only [List.headD_cons, List.drop_succ_cons, List.drop_nil,
    stripHash_replicate]
  rfl

/-- C9 witness at a single `'#'`. -/
theorem C9_witness :
    processPara (String.mk (List.replicate 1 '#')) = [DocBlock.heading 1 ""] :=
  C9_bare_hash_run_heading 1 (by decide)

/-! ## Claim C10: the unconditional title heading -/

/-- C10: the document built by `convert_to_word` always begins with
`Heading(level=1, text=request.title)`, placed before every block
derived from the content; when the content is empty or whitespace-only
the document consists of exactly that one heading. -/
theorem C10_title_heading_first (req : ConvertRequest) :
    convert_to_word req = DocBlock.heading 1 req.title :: mdBlocks req.content ∧
    ((∀ c ∈ req.content.data, pyIsSpace c = true) →
      convert_to_word req = [DocBlock.heading 1 req.title]) := by
  constructor
  · rfl
  · intro h
    unfold convert_to_word
    rw [mdBlocks_ws req.content h]

/-- C10 witness: empty content yields exactly the title heading. -/
theorem C10_witness :
    convert_to_word ⟨"My Title", ""⟩ = [DocBlock.heading 1 "My Title"] :=
  (C10_title_heading_first ⟨"My Title", ""⟩).2 (by decide)

/-! ## Claim C1: the Research Acquirer never fails (spec-modelled) -/

/-- C1: `acquire` is a total function (it returns a `ResearchOutcome`
for every topic and every lookup behaviour — the "never raises"
contract), it performs at most `MAX_RETRIES + 1` lookup attempts, and
when every attempt fails it returns the non-empty synthetic fallback
text tagged `is_live = false`. -/
theorem C1_acquire_never_fails_bounded_retries
    (lookup : Nat → Option String) (topic : String) :
    (acquire lookup topic).2 ≤ MAX_RETRIES + 1 ∧
    ((∀ i, i < MAX_RETRIES + 1 → lookup i = none) →
      (acquire lookup topic).1 = ⟨fallbackText topic, false⟩ ∧
      fallbackText topic ≠ "") := by
  constructor
  · have h := acquireGo_attempts lookup topic (MAX_RETRIES + 1) 0
    simpa [acquire] using h
  · intro h
    have hx := acquireGo_exhaust lookup topic (MAX_RETRIES + 1) 0
      (fun j _ hj2 => h j (by omega))
    refine ⟨?_, fallbackText_ne_empty topic⟩
    rw [acquire, hx]

/-- C1 witness: an always-failing lookup on the topic
`"gardening tools"` falls back to non-empty synthetic text with
`is_live = false`. -/
theorem C1_witness :
    (acquire (fun _ => none) "gardening tools").1 =
      ⟨fallbackText "gardening tools", false⟩ ∧
    fallbackText "gardening tools" ≠ "" :=
  (C1_acquire_never_fails_bounded_retries (fun _ => none) "gardening tools").2
    (fun _ _ => rfl)

/-! ## Claim C5: the synthetic-data disclosure (spec-modelled) -/

/-- C5: when `is_live = false` the orchestrator appends the disclosure
sentence to the instructions before templating, so for otherwise-equal
inputs the templated prompt contains the disclosure substring; when
`is_live = true` (and that prompt does not accidentally contain the
sentence already) the substring is absent. -/
theorem C5_disclosure_in_prompt (topic : String) (wc : Nat)
    (research instructions : String)
    (h : containsStr (generatePrompt topic wc research instructions true)
      DISCLOSURE_SENTENCE = false) :
    containsStr (generatePrompt topic wc research instructions false)
      DISCLOSURE_SENTENCE = true ∧
    containsStr (generatePrompt topic wc research instructions true)
      DISCLOSURE_SENTENCE = false := by
  refine ⟨?_, h⟩
  have h2 : generatePrompt topic wc research instructions false =
      ("\n    Write a comprehensive blog post about " ++ topic ++
        " with approximately " ++ toString wc ++ " words.\n\n" ++
        "    Research Data:\n    " ++ research ++ "\n\n" ++
        "    Special Instructions:\n    " ++ instructions ++ " ") ++
      (DISCLOSURE_SENTENCE ++
        ("\n\n" ++
        "    Requirements:\n" ++
        "    1. Ensure factual accuracy and cite sources where appropriate\n" ++
        "    2. Structure content with clear headings (use markdown)\n" ++
        "    3. Include relevant statistics and data\n" ++
        "    4. Balance depth with readability\n" ++
        "    5. Maintain SEO-friendly formatting\n" ++
        "    6. Add compelling introduction and conclusion\n" ++
        "    7. Include key takeaways or actionable insights\n\n" ++
        "    Format the content in clean markdown.\n    ")) := by
    unfold generatePrompt fillPrompt orchestratorInstructions
    simp [String.append_assoc]
  rw [h2]
  exact containsStr_append_mid _ _ _

set_option maxRecDepth 4096 in
/-- C5 witness at concrete inputs: the disclosure is present in the
synthetic-outcome prompt and absent from the live-outcome prompt. -/
theorem C5_witness :
    containsStr (generatePrompt "quantum computing" 500 "background data" "" false)
      DISCLOSURE_SENTENCE = true ∧
    containsStr (generatePrompt "quantum computing" 500 "background data" "" true)
      DISCLOSURE_SENTENCE = false :=
  C5_disclosure_in_prompt "quantum computing" 500 "background data" ""
    (by decide)

/-! ## Claim C6: backoff delays (spec-modelled) -/

/-- C6: with jitter disabled the jitter factor is fixed at `1`, the
delay for retry attempt `a >= 1` is `base * 2 ^ (a - 1)`, and delays
are strictly increasing: in particular
`delay(1) < delay(2) < delay(3)`. -/
theorem C6_backoff_delay_increasing (base jitterSample : ℚ) (hb : 0 < base) :
    (∀ a, 1 ≤ a → backoffDelay base false jitterSample a = base * 2 ^ (a - 1)) ∧
    (∀ a, 1 ≤ a → backoffDelay base false jitterSample a <
      backoffDelay base false jitterSample (a + 1)) ∧
    backoffDelay base false jitterSample 1 < backoffDelay base false jitterSample 2 ∧
    backoffDelay base false jitterSample 2 < backoffDelay base false jitterSample 3 := by
  have heq : ∀ a : Nat, backoffDelay base false jitterSample a = base * 2 ^ (a - 1) := by
    intro a
    simp [backoffDelay]
  have hmono : ∀ a, 1 ≤ a → backoffDelay base false jitterSample a <
      backoffDelay base false jitterSample (a + 1) := by
    intro a ha
    rw [heq a, heq (a + 1)]
    have h1 : a - 1 + 1 = a := by omega
    have h2 : a + 1 - 1 = a := by omega
    have hx : (0:ℚ) < 2 ^ (a - 1) := by positivity
    calc base * 2 ^ (a - 1) < base * (2 ^ (a - 1) * 2) := by nlinarith
      _ = base * 2 ^ a := by rw [← pow_succ, h1]
      _ = base * 2 ^ (a + 1 - 1) := by rw [h2]
  exact ⟨fun a _ => heq a, hmono, hmono 1 (by norm_num), hmono 2 (by norm_num)⟩

/-- C6 witness at `base = 2`: delays 2, 4, 8 for attempts 1, 2, 3. -/
theorem C6_witness :
    (∀ a, 1 ≤ a → backoffDelay 2 false 1 a = 2 * 2 ^ (a - 1)) ∧
    (∀ a, 1 ≤ a → backoffDelay 2 false 1 a < backoffDelay 2 false 1 (a + 1)) ∧
    backoffDelay 2 false 1 1 < backoffDelay 2 false 1 2 ∧
    backoffDelay 2 false 1 2 < backoffDelay 2 false 1 3 :=
  C6_backoff_delay_increasing 2 1 (by norm_num)

/-! ## Claim C7: identifier generation, storage submission, response -/

/-- C7: a run whose external calls succeed hex-encodes the 16 random
bytes into a 32-character hex identifier, submits exactly one store
record `(id, research text, metadata)` whose metadata carries the
request's topic under the key `"topic"`, and returns a response whose
`vector_id` is exactly that identifier and whose `research_data` equals
the acquired research text. -/
theorem C7_pipeline_stores_and_returns_id (req : ResearchRequest) (fx : Effects)
    (r s q f : String)
    (h1 : fx.research = .ok r)
    (h2 : fx.add_result = .ok ())
    (h3 : fx.complete (fillPrompt req.topic req.word_count r req.instructions) = .ok s)
    (h4 : fx.quality s = .ok q)
    (h5 : fx.facts s = .ok f)
    (h6 : fx.urandom16.length = 16) :
    (conduct_research req fx).1 = .ok ⟨s, bytesHex fx.urandom16, r, q, f⟩ ∧
    (conduct_research req fx).2 =
      [⟨bytesHex fx.urandom16, r,
        [("topic", req.topic), ("timestamp", fx.now_iso), ("type", "research")]⟩] ∧
    (∀ call ∈ (conduct_research req fx).2, ("topic", req.topic) ∈ call.metadata) ∧
    (bytesHex fx.urandom16).length = 32 ∧
    (∀ c ∈ (bytesHex fx.urandom16).data, c ∈ hexDigits.data) := by
  have hrun : conduct_research req fx =
      (.ok ⟨s, bytesHex fx.urandom16, r, q, f⟩,
        [⟨bytesHex fx.urandom16, r,
          [("topic", req.topic), ("timestamp", fx.now_iso), ("type", "research")]⟩]) := by
    unfold conduct_research
    simp only [h1, h2, h3, h4, h5]
  refine ⟨by rw [hrun], by rw [hrun], ?_, ?_, bytesHex_mem_hexDigits _⟩
  · intro call hcall
    rw [hrun] at hcall
    rcases List.mem_singleton.mp hcall with rfl
    simp
  · rw [bytesHex_length, h6]

/-- Effects of a fully successful run, for the C7 witness. -/
def fxAllOk : Effects :=
  ⟨.ok "fresh research", List.replicate 16 0, "2026-01-01T00:00:00",
    .ok (), fun _ => .ok "the post", fun _ => .ok "quality ok",
    fun _ => .ok "facts ok"⟩

/-- Request used by the C7 witness. -/
def reqC7 : ResearchRequest := ⟨"solar power", 800, "be concise"⟩

/-- C7 witness: the successful run at concrete effects. -/
theorem C7_witness :
    (conduct_research reqC7 fxAllOk).1 =
      .ok ⟨"the post", bytesHex fxAllOk.urandom16, "fresh research",
        "quality ok", "facts ok"⟩ ∧
    (conduct_research reqC7 fxAllOk).2 =
      [⟨bytesHex fxAllOk.urandom16, "fresh research",
        [("topic", reqC7.topic), ("timestamp", fxAllOk.now_iso),
          ("type", "research")]⟩] ∧
    (∀ call ∈ (conduct_research reqC7 fxAllOk).2,
      ("topic", reqC7.topic) ∈ call.metadata) ∧
    (bytesHex fxAllOk.urandom16).length = 32 ∧
    (∀ c ∈ (bytesHex fxAllOk.urandom16).data, c ∈ hexDigits.data) :=
  C7_pipeline_stores_and_returns_id reqC7 fxAllOk
    "fresh research" "the post" "quality ok" "facts ok"
    rfl rfl rfl rfl rfl (by decide)

/-! ## Claim C3: a store failure is not swallowed -/

/-- Effects of a run whose only failure is the store `add`: research
succeeds, `collection.add` raises, every later call would succeed. -/
def fxStoreFail : Effects :=
  ⟨.ok "background research", List.replicate 16 0, "2026-01-01T00:00:00",
    .error "connection refused", fun _ => .ok "the post",
    fun _ => .ok "quality ok", fun _ => .ok "facts ok"⟩

/-- Request used by the C3 counterexample and witness. -/
def reqC3 : ResearchRequest := ⟨"quantum computing", 500, ""⟩

/-- C3 counterexample: the claim says a failing store add is swallowed
and the pipeline returns a document with a null `vector_id`; in the
code `collection.add` sits inside the single `try`, so the store error
aborts the request as HTTP 500 and no document is returned. -/
theorem C3_store_failure_counterexample :
    (conduct_research reqC3 fxStoreFail).1 =
      .error ⟨500, "Research process failed: connection refused"⟩ := by
  decide

/-- C3 amended: if `collection.add` raises, the exception propagates to
the handler and the whole request fails with HTTP 500 wrapping the
store's error message; generation output is never returned. -/
theorem C3_store_failure_amended (req : ResearchRequest) (fx : Effects)
    (r e : String)
    (h1 : fx.research = .ok r)
    (h2 : fx.add_result = .error e) :
    (conduct_research req fx).1 =
      .error ⟨500, "Research process failed: " ++ e⟩ := by
  unfold conduct_research
  rw [h1, h2]

/-- C3 witness for the amended theorem at the concrete failing store. -/
theorem C3_witness :
    (conduct_research reqC3 fxStoreFail).1 =
      .error ⟨500, "Research process failed: " ++ "connection refused"⟩ :=
  C3_store_failure_amended reqC3 fxStoreFail "background research"
    "connection refused" rfl rfl

/-! ## Claim C4: blank generation output is returned, not rejected -/

/-- Effects of a run whose generator returns the empty string and whose
other calls succeed. -/
def fxBlankGen : Effects :=
  ⟨.ok "background research", List.replicate 16 0, "2026-01-01T00:00:00",
    .ok (), fun _ => .ok "", fun _ => .ok "quality ok", fun _ => .ok "facts ok"⟩

/-- Request used by the C4 counterexample and witness. -/
def reqC4 : ResearchRequest := ⟨"quantum computing", 500, ""⟩

/-- C4 counterexample: the claim says a blank generation result raises
an `EmptyOutputError` and is never returned as content; the code has no
emptiness check, and the empty string comes back as the document's
`content`. -/
theorem C4_blank_output_counterexample :
    (conduct_research reqC4 fxBlankGen).1 =
      .ok ⟨"", "00000000000000000000000000000000", "background research",
        "quality ok", "facts ok"⟩ := by
  decide

/-- C4 amended: the generation step performs no emptiness check — when
the external generator returns the empty string, that empty string is
returned to the caller as the document's `content`. -/
theorem C4_blank_output_amended (req : ResearchRequest) (fx : Effects)
    (r q f : String)
    (h1 : fx.research = .ok r)
    (h2 : fx.add_result = .ok ())
    (h3 : fx.complete (fillPrompt req.topic req.word_count r req.instructions) = .ok "")
    (h4 : fx.quality "" = .ok q)
    (h5 : fx.facts "" = .ok f) :
    (conduct_research req fx).1 =
      .ok ⟨"", bytesHex fx.urandom16, r, q, f⟩ := by
  unfold conduct_research
  simp only [h1, h2, h3, h4, h5]

/-- C4 witness for the amended theorem at the concrete blank generator. -/
theorem C4_witness :
    (conduct_research reqC4 fxBlankGen).1 =
      .ok ⟨"", bytesHex fxBlankGen.urandom16, "background research",
        "quality ok", "facts ok"⟩ :=
  C4_blank_output_amended reqC4 fxBlankGen "background research"
    "quality ok" "facts ok" rfl rfl rfl rfl rfl
